import Mathlib

/-!
Shallow embedding of the Graylog MCP server (`src/index.js`): the JavaScript
value model needed by its validation layer, the ISO-8601 timestamp validator,
the parameter validators, the remote-error normalizer `formatError`, the
response shapers, the four tool functions and the `CallToolRequestSchema`
dispatch handler.  Machine numbers of the source are JavaScript doubles used
at small magnitudes; they are modelled as `ℚ` plus an explicit NaN case.
Date-time strings are parsed with a model of the ECMAScript Date Time String
Format (`YYYY[-MM[-DD]][THH:mm[:ss[.fff]]][Z|±HH:mm]`); forms without an
offset are interpreted at UTC (the host timezone of the model).
-/

deriving instance DecidableEq for Except

namespace Graylog

/-- A JavaScript value, restricted to the scalar shapes the validation layer
of `src/index.js` inspects.  `obj` stands for a plain (non-array) object. -/
inductive JSVal where
  | undefined
  | null
  | num (q : ℚ)
  | nan
  | str (s : String)
  | bool (b : Bool)
  | obj
deriving DecidableEq

/-- JavaScript falsiness: `undefined`, `null`, `0`, `NaN`, `""`, `false`. -/
def jsFalsy : JSVal → Bool
  | .undefined => true
  | .null => true
  | .num q => q == 0
  | .nan => true
  | .str s => s == ""
  | .bool b => !b
  | .obj => false

def jsTruthy (v : JSVal) : Bool := !(jsFalsy v)

/-- The JavaScript `typeof` operator (note `typeof null` is `"object"`). -/
def typeOf : JSVal → String
  | .undefined => "undefined"
  | .null => "object"
  | .num _ => "number"
  | .nan => "number"
  | .str _ => "string"
  | .bool _ => "boolean"
  | .obj => "object"

/-- The string content of a value; non-strings give `""` (only reached on
paths where the source has already established the value is a string). -/
def asString : JSVal → String
  | .str s => s
  | _ => ""

/-- `undefined` and `null` are the two nullish values (`??` semantics). -/
def jsNullish : JSVal → Bool
  | .undefined => true
  | .null => true
  | _ => false

/-- `v ?? d` for a numeric default, as in `args.limit ?? 50`. -/
def resolveDefault (v : JSVal) (d : ℚ) : JSVal :=
  if jsNullish v then .num d else v

-- ===========================================================================
-- Character-list helpers (kernel-reducible replacements for String methods)
-- ===========================================================================

/-- Split a character list at every occurrence of `c` (like `splitOn`). -/
def splitOnChar (c : Char) : List Char → List (List Char)
  | [] => [[]]
  | x :: xs =>
    let r := splitOnChar c xs
    if x = c then [] :: r
    else
      match r with
      | [] => [[x]]
      | h :: t => (x :: h) :: t

/-- Numeric value of a list of decimal digit characters. -/
def digitsVal (l : List Char) : Nat :=
  l.foldl (fun a c => a * 10 + (c.toNat - 48)) 0

/-- A digit string of exactly `len` characters, as a number. -/
def fixedNat (l : List Char) (len : Nat) : Option Nat :=
  if l.length = len ∧ l.all Char.isDigit then some (digitsVal l) else none

/-- `String.prototype.trim` on the character list. -/
def trimChars (l : List Char) : List Char :=
  ((l.dropWhile Char.isWhitespace).reverse.dropWhile Char.isWhitespace).reverse

/-- Model of `String.prototype.trim`. -/
def jsTrimStr (s : String) : String := ⟨trimChars s.data⟩

/-- Model of `String.prototype.includes` for a single character. -/
def includesChar (s : String) (c : Char) : Bool := s.data.contains c

-- ===========================================================================
-- ToNumber coercion (for the relational operators `<` and `>`)
-- ===========================================================================

/-- Exponent part of a decimal numeric literal: `[+|-] digits`. -/
def parseExpChars (l : List Char) : Option Int :=
  match l with
  | '+' :: r => if r ≠ [] ∧ r.all Char.isDigit then some (digitsVal r : Int) else none
  | '-' :: r => if r ≠ [] ∧ r.all Char.isDigit then some (-(digitsVal r : Int)) else none
  | r => if r ≠ [] ∧ r.all Char.isDigit then some (digitsVal r : Int) else none

/-- Unsigned decimal mantissa: `digits [. digits]`, `. digits` or `digits .`. -/
def parseMantissaChars (l : List Char) : Option ℚ :=
  let intD := l.takeWhile Char.isDigit
  let rest := l.dropWhile Char.isDigit
  match rest with
  | [] => if intD.isEmpty then none else some (digitsVal intD : ℚ)
  | '.' :: r2 =>
    let fr := r2.takeWhile Char.isDigit
    let r3 := r2.dropWhile Char.isDigit
    if r3.isEmpty ∧ (intD.isEmpty = false ∨ fr.isEmpty = false) then
      some ((digitsVal intD : ℚ) + (digitsVal fr : ℚ) / ((10 : ℚ) ^ fr.length))
    else none
  | _ => none

/-- Unsigned decimal literal with optional exponent. -/
def parseNumChars (l : List Char) : Option ℚ :=
  let mant := l.takeWhile (fun c => c ≠ 'e' ∧ c ≠ 'E')
  let rest := l.dropWhile (fun c => c ≠ 'e' ∧ c ≠ 'E')
  let expo : Option Int :=
    match rest with
    | [] => some 0
    | _ :: r => parseExpChars r
  match parseMantissaChars mant, expo with
  | some m, some e => some (m * (10 : ℚ) ^ e)
  | _, _ => none

/-- `ToNumber` on a string: trimmed empty string is `0`, decimal literals get
their value, anything else is NaN (`none`).  Covers the decimal notation the
source's numeric arguments use; `Infinity` and radix prefixes are out of the
modelled domain and conservatively map to NaN. -/
def strToNumberOpt (s : String) : Option ℚ :=
  let t := trimChars s.data
  if t = [] then some 0
  else
    match t with
    | '+' :: r => parseNumChars r
    | '-' :: r => (parseNumChars r).map Neg.neg
    | r => parseNumChars r

/-- `ToNumber` coercion; `none` is NaN. -/
def jsToNumberOpt : JSVal → Option ℚ
  | .undefined => none
  | .null => some 0
  | .num q => some q
  | .nan => none
  | .str s => strToNumberOpt s
  | .bool b => some (if b then 1 else 0)
  | .obj => none

/-- The JavaScript comparison `v < q` against a number literal: NaN on either
side makes the comparison false. -/
def jsLtNum (v : JSVal) (q : ℚ) : Bool :=
  match jsToNumberOpt v with
  | some x => decide (x < q)
  | none => false

/-- The JavaScript comparison `v > q` against a number literal. -/
def jsGtNum (v : JSVal) (q : ℚ) : Bool :=
  match jsToNumberOpt v with
  | some x => decide (q < x)
  | none => false

-- ===========================================================================
-- Date parsing (model of `new Date(string)` on the Date Time String Format)
-- ===========================================================================

/-- Days since the Unix epoch of a civil date; day values past the month's
end normalize forward exactly like ECMAScript `MakeDay`. -/
def daysFromCivil (y : Int) (m d : Nat) : Int :=
  let y' : Int := if m ≤ 2 then y - 1 else y
  let era : Int := (if 0 ≤ y' then y' else y' - 399) / 400
  let yoe : Int := y' - era * 400
  let mp : Int := if 2 < m then (m : Int) - 3 else (m : Int) + 9
  let doy : Int := (153 * mp + 2) / 5 + (d : Int) - 1
  let doe : Int := yoe * 365 + yoe / 4 - yoe / 100 + doy
  era * 146097 + doe - 719468

/-- Date part `YYYY[-MM[-DD]]`. -/
def parseDateChars (d : List Char) : Option (Int × Nat × Nat) :=
  match splitOnChar '-' d with
  | [y] => do
      let yn ← fixedNat y 4
      some ((yn : Int), 1, 1)
  | [y, m] => do
      let yn ← fixedNat y 4
      let mn ← fixedNat m 2
      if 1 ≤ mn ∧ mn ≤ 12 then some ((yn : Int), mn, 1) else none
  | [y, m, dd] => do
      let yn ← fixedNat y 4
      let mn ← fixedNat m 2
      let dn ← fixedNat dd 2
      if 1 ≤ mn ∧ mn ≤ 12 ∧ 1 ≤ dn ∧ dn ≤ 31 then some ((yn : Int), mn, dn) else none
  | _ => none

/-- Offset `HH:mm`, in minutes. -/
def parseOffsetChars (off : List Char) : Option Int :=
  match splitOnChar ':' off with
  | [h, m] => do
      let hn ← fixedNat h 2
      let mn ← fixedNat m 2
      if hn ≤ 23 ∧ mn ≤ 59 then some ((hn : Int) * 60 + (mn : Int)) else none
  | _ => none

/-- Hours and minutes; `24` is allowed only as `24:00`. -/
def parseHourMin (h m : List Char) : Option (Nat × Nat) := do
  let hn ← fixedNat h 2
  let mn ← fixedNat m 2
  if (hn ≤ 23 ∧ mn ≤ 59) ∨ (hn = 24 ∧ mn = 0) then some (hn, mn) else none

/-- Seconds with optional fraction, as (seconds, milliseconds). -/
def parseSecondsChars (s : List Char) : Option (Nat × Nat) :=
  match splitOnChar '.' s with
  | [ss] => do
      let sn ← fixedNat ss 2
      if sn ≤ 59 then some (sn, 0) else none
  | [ss, fr] => do
      let sn ← fixedNat ss 2
      if sn ≤ 59 ∧ fr ≠ [] ∧ fr.all Char.isDigit then
        some (sn, digitsVal ((fr ++ ['0', '0', '0']).take 3))
      else none
  | _ => none

/-- Time part `HH:mm[:ss[.fff]]`, in milliseconds from midnight. -/
def parseTimeChars (t : List Char) : Option Nat :=
  match splitOnChar ':' t with
  | [h, m] => do
      let (hn, mn) ← parseHourMin h m
      some ((hn * 60 + mn) * 60000)
  | [h, m, s] => do
      let (hn, mn) ← parseHourMin h m
      let (sn, ms) ← parseSecondsChars s
      if hn = 24 ∧ (sn ≠ 0 ∨ ms ≠ 0) then none
      else some (((hn * 60 + mn) * 60 + sn) * 1000 + ms)
  | _ => none

/-- Split a trailing `Z` or `±HH:mm` offset from the time part; a bare time
is local time, modelled at UTC. -/
def splitOffsetChars (t : List Char) : Option (List Char × Int) :=
  if t ≠ [] ∧ t.getLast? = some 'Z' then some (t.dropLast, 0)
  else
    match splitOnChar '+' t with
    | [_, off] => do
        let o ← parseOffsetChars off
        some (t.takeWhile (fun c => c ≠ '+'), o)
    | [_] =>
      match splitOnChar '-' t with
      | [core] => some (core, 0)
      | [core, off] => do
          let o ← parseOffsetChars off
          some (core, -o)
      | _ => none
    | _ => none

/-- Epoch milliseconds of a Date Time String Format string; `none` is an
invalid date. -/
def parseJSDateChars (l : List Char) : Option Int :=
  match splitOnChar 'T' l with
  | [d] => do
      let (y, m, dd) ← parseDateChars d
      let v := daysFromCivil y m dd * 86400000
      if v.natAbs ≤ 8640000000000000 then some v else none
  | [d, t] => do
      let (y, m, dd) ← parseDateChars d
      let (core, off) ← splitOffsetChars t
      let ms ← parseTimeChars core
      let v := daysFromCivil y m dd * 86400000 + (ms : Int) - off * 60000
      if v.natAbs ≤ 8640000000000000 then some v else none
  | _ => none

/-- Model of `new Date(s).getTime()`: `none` when the date is invalid. -/
def parseJSDate (s : String) : Option Int := parseJSDateChars s.data

/-- `isValidISO8601` from `src/index.js`: non-empty, parses to a valid date,
and contains a literal `T`. -/
def isValidISO8601 (s : String) : Bool :=
  if s = "" then false
  else (parseJSDate s).isSome && includesChar s 'T'

/-- `validateTimeRange` from `src/index.js`. -/
def validateTimeRange (f t : String) : Except String Unit :=
  if !(isValidISO8601 f) then
    .error ("Invalid \x27from\x27 timestamp. Use ISO 8601 format (e.g., \x272025-09-29T17:57:26.568Z\x27)")
  else if !(isValidISO8601 t) then
    .error ("Invalid \x27to\x27 timestamp. Use ISO 8601 format (e.g., \x272025-09-30T12:36:20.910Z\x27)")
  else if (parseJSDate t).getD 0 ≤ (parseJSDate f).getD 0 then
    .error ("\x27from\x27 timestamp must be before \x27to\x27 timestamp")
  else .ok ()

-- ===========================================================================
-- Remote call failure normalization (`formatError`, `graylogRequest`)
-- ===========================================================================

/-- The part of an HTTP response `formatError` reads: the status code and
`data?.message` (`none` when the body or its `message` field is absent). -/
structure HttpResponse where
  status : Nat
  dataMessage : Option String
deriving DecidableEq

/-- The part of an axios failure `formatError` reads: `error.response`,
the truthiness of `error.request`, and `error.message`. -/
structure AxiosError where
  response : Option HttpResponse
  hasRequest : Bool
  message : String
deriving DecidableEq

/-- `a || b` on a possibly-absent string (absent and `""` are falsy). -/
def orFalsy (o : Option String) (fallback : String) : String :=
  match o with
  | some s => if s = "" then fallback else s
  | none => fallback

/-- `formatError` from `src/index.js`; `baseUrl` is `CONFIG.baseUrl`. -/
def formatError (baseUrl : String) (e : AxiosError) : String :=
  match e.response with
  | some r =>
    if r.status = 401 then
      "Authentication failed. Check API_TOKEN in MCP configuration."
    else if r.status = 400 then
      "Invalid query: " ++ orFalsy r.dataMessage ("Check query syntax and parameters")
    else if r.status = 404 then
      "Endpoint not found. Check BASE_URL in MCP configuration."
    else if r.status = 500 then
      "Graylog server error: " ++ orFalsy r.dataMessage e.message
    else
      "Graylog API error (" ++ toString r.status ++ "): " ++ orFalsy r.dataMessage e.message
  | none =>
    if e.hasRequest then
      "Cannot reach Graylog at " ++ baseUrl ++ ". Check network connectivity."
    else e.message

/-- `graylogRequest` from `src/index.js`, with the outcome of the one
outbound GET supplied as data: a success passes the body through, a failure
is rethrown as `formatError`'s message. -/
def graylogRequest {α : Type} (baseUrl : String) (outcome : Except AxiosError α) :
    Except String α :=
  match outcome with
  | .ok d => .ok d
  | .error e => .error (formatError baseUrl e)

-- ===========================================================================
-- Raw remote payloads and shaped results
-- ===========================================================================

/-- The nested `message` payload of one raw search hit. -/
structure MsgPayload where
  timestamp : String
  message : String
  source : String
  level : String
deriving DecidableEq

/-- One raw entry of the remote `messages` array: `null`, `undefined`, or an
object whose `message` field is either nullish or a payload object. -/
inductive RawEntry where
  | nullEntry
  | undefEntry
  | entry (message : Option MsgPayload)
deriving DecidableEq

/-- A shaped log message: the four projected fields. -/
structure LogMessage where
  timestamp : String
  message : String
  source : String
  level : String
deriving DecidableEq

/-- The raw body of a search response, as read by the shaper. -/
structure RawSearchData where
  total_results : Option Nat
  built_query : Option String
  messages : Option (List RawEntry)
deriving DecidableEq

/-- Truthiness of a raw entry (`m` in `m && m.message`). -/
def entryTruthy : RawEntry → Bool
  | .entry _ => true
  | _ => false

/-- Truthiness of a raw entry's nested payload (`m.message`). -/
def entryMessageTruthy : RawEntry → Bool
  | .entry (some _) => true
  | _ => false

/-- Projection of a kept raw entry to the four output fields. -/
def projectEntry : RawEntry → LogMessage
  | .entry (some p) => ⟨p.timestamp, p.message, p.source, p.level⟩
  | _ => ⟨"", "", "", ""⟩

/-- `(data.messages || []).filter(m => m && m.message).map(...)`. -/
def shapeMessages (l : List RawEntry) : List LogMessage :=
  (l.filter (fun m => entryTruthy m && entryMessageTruthy m)).map projectEntry

/-- The spec's wording of the discard rule: an entry is dropped when it is
null/absent or its nested message payload is null/absent. -/
def droppedBySpec : RawEntry → Bool
  | .nullEntry => true
  | .undefEntry => true
  | .entry none => true
  | .entry (some _) => false

/-- The `time_range` echo of a shaped search result: the absolute variant
echoes the caller's `from`/`to`, the relative one the resolved seconds. -/
inductive TimeRangeEcho where
  | absolute (fromTs toTs : String)
  | relative (range : JSVal)
deriving DecidableEq

/-- The shaped search result. -/
structure SearchResult where
  total_results : Nat
  query : Option String
  time_range : TimeRangeEcho
  messages : List LogMessage
deriving DecidableEq

/-- The `result` object both search tools build from the raw body. -/
def shapeSearchResult (tr : TimeRangeEcho) (d : RawSearchData) : SearchResult :=
  { total_results := d.total_results.getD 0
    query := d.built_query
    time_range := tr
    messages := shapeMessages (d.messages.getD []) }

/-- One raw stream object, as read by the stream shaper. -/
structure RawStream where
  id : String
  title : String
  description : Option String
  disabled : Bool
  is_default : Bool
deriving DecidableEq

/-- One shaped stream. -/
structure ShapedStream where
  id : String
  title : String
  description : String
  disabled : Bool
deriving DecidableEq

/-- The raw body of the streams response. -/
structure RawStreamsData where
  streams : Option (List RawStream)
deriving DecidableEq

/-- The shaped streams result. -/
structure StreamsResult where
  total : Nat
  streams : List ShapedStream
deriving DecidableEq

/-- Projection of one stream (`description || ''`). -/
def shapeStream (s : RawStream) : ShapedStream :=
  { id := s.id, title := s.title, description := s.description.getD "", disabled := s.disabled }

/-- The stream-list shaping of `listStreams`: drop default streams, sort the
rest by title with the host collation `localeLe` (the model of
`a.title.localeCompare(b.title) <= 0`; the array sort is stable), project,
and wrap with the count.  `List.insertionSort` is a stable sort, so for a
consistent collation it computes the same list as the source's sort. -/
def shapeStreamsResult (localeLe : String → String → Bool) (d : RawStreamsData) :
    StreamsResult :=
  let sorted := List.insertionSort (fun a b : RawStream => localeLe a.title b.title = true)
    ((d.streams.getD []).filter (fun s => !s.is_default))
  let streams := sorted.map shapeStream
  { total := streams.length, streams := streams }

/-- The raw body of the system response, as read by `getSystemInfo`. -/
structure RawSystemData where
  version : String
  codename : String
  cluster_id : String
  node_id : String
  hostname : String
  is_processing : Bool
  timezone : String
deriving DecidableEq

/-- The shaped system result: the seven fields, passthrough. -/
structure SystemResult where
  version : String
  codename : String
  cluster_id : String
  node_id : String
  hostname : String
  is_processing : Bool
  timezone : String
deriving DecidableEq

/-- `getSystemInfo`'s projection. -/
def shapeSystem (d : RawSystemData) : SystemResult :=
  ⟨d.version, d.codename, d.cluster_id, d.node_id, d.hostname, d.is_processing, d.timezone⟩

-- ===========================================================================
-- Textual rendering (model of `JSON.stringify(result, null, 2)`)
-- ===========================================================================

/-- Rendering of a number the way a template literal does for the small
integral values the tools handle. -/
def ratDisplay (q : ℚ) : String :=
  if q.den = 1 then toString q.num else toString q.num ++ "/" ++ toString q.den

/-- String interpolation of a value (template-literal coercion). -/
def jsDisplay : JSVal → String
  | .undefined => "undefined"
  | .null => "null"
  | .num q => ratDisplay q
  | .nan => "NaN"
  | .str s => s
  | .bool b => if b then "true" else "false"
  | .obj => "[object Object]"

def quoteJson (s : String) : String := "\"" ++ s ++ "\""

def renderLogMessage (m : LogMessage) : String :=
  "\x7b\"timestamp\": " ++ quoteJson m.timestamp ++ ", \"message\": " ++ quoteJson m.message ++
    ", \"source\": " ++ quoteJson m.source ++ ", \"level\": " ++ quoteJson m.level ++ "\x7d"

def renderTimeRange : TimeRangeEcho → String
  | .absolute f t => "\x7b\"from\": " ++ quoteJson f ++ ", \"to\": " ++ quoteJson t ++ "\x7d"
  | .relative r => quoteJson ("Last " ++ jsDisplay r ++ " seconds")

/-- Rendering of a shaped search result (a `query` that is `undefined` is
omitted, as `JSON.stringify` does). -/
def renderSearchResult (r : SearchResult) : String :=
  "\x7b\"total_results\": " ++ toString r.total_results ++
    (match r.query with
      | some q => ", \"query\": " ++ quoteJson q
      | none => "") ++
    ", \"time_range\": " ++ renderTimeRange r.time_range ++
    ", \"messages\": [" ++ String.intercalate ", " (r.messages.map renderLogMessage) ++ "]\x7d"

def renderShapedStream (s : ShapedStream) : String :=
  "\x7b\"id\": " ++ quoteJson s.id ++ ", \"title\": " ++ quoteJson s.title ++
    ", \"description\": " ++ quoteJson s.description ++
    ", \"disabled\": " ++ (if s.disabled then "true" else "false") ++ "\x7d"

def renderStreamsResult (r : StreamsResult) : String :=
  "\x7b\"total\": " ++ toString r.total ++
    ", \"streams\": [" ++ String.intercalate ", " (r.streams.map renderShapedStream) ++ "]\x7d"

def renderSystemResult (r : SystemResult) : String :=
  "\x7b\"version\": " ++ quoteJson r.version ++ ", \"codename\": " ++ quoteJson r.codename ++
    ", \"cluster_id\": " ++ quoteJson r.cluster_id ++ ", \"node_id\": " ++ quoteJson r.node_id ++
    ", \"hostname\": " ++ quoteJson r.hostname ++
    ", \"is_processing\": " ++ (if r.is_processing then "true" else "false") ++
    ", \"timezone\": " ++ quoteJson r.timezone ++ "\x7d"

-- ===========================================================================
-- Tool arguments, parameter validation and request parameters
-- ===========================================================================

/-- The arguments object of a tool call; an absent property reads as
`undefined`.  `from`/`to` are the timestamp strings of the absolute search
(named `fromTs`/`toTs` because `from` is reserved in Lean). -/
structure ToolArgs where
  query : JSVal := .undefined
  fromTs : String := ""
  toTs : String := ""
  streamId : JSVal := .undefined
  rangeSeconds : JSVal := .undefined
  limit : JSVal := .undefined
deriving DecidableEq

/-- `if (!query || typeof query !== 'string' || !query.trim()) throw`. -/
def checkQuery (q : JSVal) : Except String Unit :=
  if jsFalsy q || !(typeOf q == "string") || (jsTrimStr (asString q) == "") then
    .error ("\x27query\x27 parameter is required and must be a non-empty string")
  else .ok ()

/-- `if (streamId !== undefined && typeof streamId !== 'string') throw`. -/
def checkStreamId (v : JSVal) : Except String Unit :=
  if v ≠ JSVal.undefined ∧ typeOf v ≠ "string" then
    .error ("\x27streamId\x27 must be a string")
  else .ok ()

/-- `if (limit < 1 || limit > 1000) throw`. -/
def checkLimit (l : JSVal) : Except String Unit :=
  if jsLtNum l 1 || jsGtNum l 1000 then
    .error ("\x27limit\x27 must be between 1 and 1000")
  else .ok ()

/-- `if (rangeSeconds < 1 || rangeSeconds > 86400) throw`. -/
def checkRangeSeconds (r : JSVal) : Except String Unit :=
  if jsLtNum r 1 || jsGtNum r 86400 then
    .error ("\x27rangeSeconds\x27 must be between 1 and 86400 (24 hours)")
  else .ok ()

/-- The query parameters of the absolute-search GET. -/
structure AbsParams where
  query : String
  fromTs : String
  toTs : String
  limit : JSVal
  fields : String
  filter : Option String
deriving DecidableEq

/-- The query parameters of the relative-search GET. -/
structure RelParams where
  query : String
  range : JSVal
  limit : JSVal
  fields : String
  filter : Option String
deriving DecidableEq

/-- The `params` object `searchLogsAbsolute` builds. -/
def buildAbsParams (a : ToolArgs) (limit : JSVal) : AbsParams :=
  { query := jsTrimStr (asString a.query)
    fromTs := jsTrimStr a.fromTs
    toTs := jsTrimStr a.toTs
    limit := limit
    fields := "message,timestamp,source,level"
    filter := if jsTruthy a.streamId then some ("streams:" ++ asString a.streamId) else none }

/-- The `params` object `searchLogsRelative` builds. -/
def buildRelParams (a : ToolArgs) (rangeSeconds limit : JSVal) : RelParams :=
  { query := jsTrimStr (asString a.query)
    range := rangeSeconds
    limit := limit
    fields := "message,timestamp,source,level"
    filter := if jsTruthy a.streamId then some ("streams:" ++ asString a.streamId) else none }

/-- The validation phase of `searchLogsAbsolute`: the sequence of checks the
source performs before issuing the GET, ending with the built parameters. -/
def absValidate (a : ToolArgs) : Except String AbsParams :=
  let limit := resolveDefault a.limit 50
  match checkQuery a.query with
  | .error e => .error e
  | .ok _ =>
    match validateTimeRange a.fromTs a.toTs with
    | .error e => .error e
    | .ok _ =>
      match checkStreamId a.streamId with
      | .error e => .error e
      | .ok _ =>
        match checkLimit limit with
        | .error e => .error e
        | .ok _ => .ok (buildAbsParams a limit)

/-- The validation phase of `searchLogsRelative`. -/
def relValidate (a : ToolArgs) : Except String RelParams :=
  let rangeSeconds := resolveDefault a.rangeSeconds 900
  let limit := resolveDefault a.limit 50
  match checkQuery a.query with
  | .error e => .error e
  | .ok _ =>
    match checkRangeSeconds rangeSeconds with
    | .error e => .error e
    | .ok _ =>
      match checkStreamId a.streamId with
      | .error e => .error e
      | .ok _ =>
        match checkLimit limit with
        | .error e => .error e
        | .ok _ => .ok (buildRelParams a rangeSeconds limit)

-- ===========================================================================
-- MCP envelopes, the four tools, and the dispatch handler
-- ===========================================================================

/-- One item of a result envelope's `content` array. -/
structure ContentItem where
  type : String
  text : String
deriving DecidableEq

/-- The tool result envelope (`isError` is absent on success). -/
structure Envelope where
  content : List ContentItem
  isError : Option Bool := none
deriving DecidableEq

/-- Static configuration: `CONFIG.baseUrl`, plus the host collation used by
`localeCompare` (`localeLe a b` models `a.localeCompare(b) <= 0`). -/
structure Config where
  baseUrl : String
  localeLe : String → String → Bool

/-- The remote Graylog API as an oracle: the outcome of the one GET each
endpoint would answer, as a function of the sent query parameters. -/
structure RemoteEnv where
  absolute : AbsParams → Except AxiosError RawSearchData
  relative : RelParams → Except AxiosError RawSearchData
  streams : Except AxiosError RawStreamsData
  system : Except AxiosError RawSystemData

/-- `searchLogsAbsolute` from `src/index.js`. -/
def searchLogsAbsolute (cfg : Config) (env : RemoteEnv) (a : ToolArgs) :
    Except String Envelope :=
  match absValidate a with
  | .error e => .error e
  | .ok p =>
    match graylogRequest cfg.baseUrl (env.absolute p) with
    | .error e => .error e
    | .ok data =>
      .ok { content := [⟨"text",
        renderSearchResult (shapeSearchResult (.absolute a.fromTs a.toTs) data)⟩] }

/-- `searchLogsRelative` from `src/index.js`. -/
def searchLogsRelative (cfg : Config) (env : RemoteEnv) (a : ToolArgs) :
    Except String Envelope :=
  match relValidate a with
  | .error e => .error e
  | .ok p =>
    match graylogRequest cfg.baseUrl (env.relative p) with
    | .error e => .error e
    | .ok data =>
      .ok { content := [⟨"text",
        renderSearchResult (shapeSearchResult (.relative p.range) data)⟩] }

/-- `listStreams` from `src/index.js`. -/
def listStreams (cfg : Config) (env : RemoteEnv) : Except String Envelope :=
  match graylogRequest cfg.baseUrl env.streams with
  | .error e => .error e
  | .ok data =>
    .ok { content := [⟨"text", renderStreamsResult (shapeStreamsResult cfg.localeLe data)⟩] }

/-- `getSystemInfo` from `src/index.js`. -/
def getSystemInfo (cfg : Config) (env : RemoteEnv) : Except String Envelope :=
  match graylogRequest cfg.baseUrl env.system with
  | .error e => .error e
  | .ok data =>
    .ok { content := [⟨"text", renderSystemResult (shapeSystem data)⟩] }

/-- The `switch (name)` body of the `CallToolRequestSchema` handler: route
to the matching operation, or fail with the unknown-tool message. -/
def runTool (cfg : Config) (env : RemoteEnv) (name : String) (args : ToolArgs) :
    Except String Envelope :=
  if name = "search_logs_absolute" then searchLogsAbsolute cfg env args
  else if name = "search_logs_relative" then searchLogsRelative cfg env args
  else if name = "list_streams" then listStreams cfg env
  else if name = "get_system_info" then getSystemInfo cfg env
  else .error ("Unknown tool: " ++ name)

/-- The `CallToolRequestSchema` handler: the `try`/`catch` boundary that
wraps any failure into the uniform error envelope. -/
def dispatch (cfg : Config) (env : RemoteEnv) (name : String) (args : ToolArgs) : Envelope :=
  match runTool cfg env name args with
  | .ok e => e
  | .error msg => { content := [⟨"text", "Error: " ++ msg⟩], isError := some true }

-- ===========================================================================
-- Concrete fixtures used by witnesses and scenario conjuncts
-- ===========================================================================

/-- Lexicographic order on codepoint lists. -/
def lexLe : List Char → List Char → Bool
  | [], _ => true
  | _ :: _, [] => false
  | x :: xs, y :: ys =>
    if x.toNat < y.toNat then true
    else if y.toNat < x.toNat then false
    else lexLe xs ys

/-- A computable codepoint collation, used as a concrete host locale. -/
def codepointLe (a b : String) : Bool := lexLe a.data b.data

/-- A concrete configuration (codepoint collation as the host locale). -/
def cfg0 : Config :=
  { baseUrl := "https://graylog.example.com", localeLe := codepointLe }

def emptySearchData : RawSearchData :=
  { total_results := none, built_query := none, messages := none }

/-- A remote that answers every endpoint successfully with minimal bodies. -/
def env0 : RemoteEnv :=
  { absolute := fun _ => .ok emptySearchData
    relative := fun _ => .ok emptySearchData
    streams := .ok { streams := none }
    system := .ok ⟨"6.0.0", "Noir", "c1", "n1", "h1", true, "UTC"⟩ }

/-- A remote whose absolute endpoint reports back the limit it was sent
(inside the raw transport message of a response-less, request-less failure,
which `formatError` surfaces unmodified). -/
def envRecordLimit : RemoteEnv :=
  { env0 with absolute := fun p => .error ⟨none, false, jsDisplay p.limit⟩ }

def args0 : ToolArgs := {}

/-- Valid absolute-search arguments except for a zero limit. -/
def argsLimit0 : ToolArgs :=
  { query := .str "level:ERROR", fromTs := "2025-01-01T00:00:00Z",
    toTs := "2025-01-02T00:00:00Z", limit := .num 0 }

/-- Valid relative-search arguments except for a zero range. -/
def argsRange0 : ToolArgs :=
  { query := .str "level:ERROR", rangeSeconds := .num 0 }

/-- Valid absolute-search arguments with an arbitrary limit value. -/
def argsAbsWithLimit (v : JSVal) : ToolArgs :=
  { query := .str "level:ERROR", fromTs := "2025-01-01T00:00:00Z",
    toTs := "2025-01-02T00:00:00Z", limit := v }

/-- Valid relative-search arguments with an arbitrary limit value. -/
def argsRelWithLimit (v : JSVal) : ToolArgs :=
  { query := .str "level:ERROR", limit := v }

/-- A concrete streams body: one default stream among two ordinary ones. -/
def streamsFixture : RawStreamsData :=
  { streams := some
      [⟨"i1", "zeta", none, false, false⟩,
       ⟨"i2", "alpha", some "app logs", true, false⟩,
       ⟨"i3", "Default Stream", none, false, true⟩] }

-- ===========================================================================
-- Helper lemmas
-- ===========================================================================

theorem parseJSDate_empty : parseJSDate "" = none := by decide

theorem isValidISO8601_iff (s : String) :
    isValidISO8601 s = true ↔
      ((parseJSDate s).isSome = true ∧ includesChar s 'T' = true) := by
  unfold isValidISO8601
  by_cases hs : s = ""
  · subst hs
    simp [parseJSDate_empty]
  · rw [if_neg hs, Bool.and_eq_true]

theorem lexLe_total : ∀ a b : List Char, lexLe a b = true ∨ lexLe b a = true := by
  intro a
  induction a with
  | nil => intro b; left; rfl
  | cons x xs ih =>
    intro b
    cases b with
    | nil => right; rfl
    | cons y ys =>
      by_cases h1 : x.toNat < y.toNat
      · left
        simp [lexLe, h1]
      · by_cases h2 : y.toNat < x.toNat
        · right
          simp [lexLe, h2]
        · rcases ih ys with h | h
          · left
            simp [lexLe, h1, h2, h]
          · right
            simp [lexLe, h1, h2, h]

theorem lexLe_trans :
    ∀ a b c : List Char, lexLe a b = true → lexLe b c = true → lexLe a c = true := by
  intro a
  induction a with
  | nil => intro b c h1 h2; rfl
  | cons x xs ih =>
    intro b c h1 h2
    cases b with
    | nil => simp [lexLe] at h1
    | cons y ys =>
      cases c with
      | nil => simp [lexLe] at h2
      | cons z zs =>
        by_cases hxy : x.toNat < y.toNat
        · by_cases hzy : z.toNat < y.toNat
          · have hyz : ¬ y.toNat < z.toNat := Nat.lt_asymm hzy
            simp [lexLe, hyz, hzy] at h2
          · have : x.toNat < z.toNat := lt_of_lt_of_le hxy (le_of_not_lt hzy)
            simp [lexLe, this]
        · by_cases hyx : y.toNat < x.toNat
          · simp [lexLe, hxy, hyx] at h1
          · have hxeqy : x.toNat = y.toNat :=
              Nat.le_antisymm (le_of_not_lt hyx) (le_of_not_lt hxy)
            have h1' : lexLe xs ys = true := by
              simpa [lexLe, hxy, hyx] using h1
            by_cases hyz : y.toNat < z.toNat
            · have : x.toNat < z.toNat := hxeqy ▸ hyz
              simp [lexLe, this]
            · by_cases hzy : z.toNat < y.toNat
              · simp [lexLe, hyz, hzy] at h2
              · have h2' : lexLe ys zs = true := by
                  simpa [lexLe, hyz, hzy] using h2
                have hxz : ¬ x.toNat < z.toNat := by
                  rw [hxeqy]; exact hyz
                have hzx : ¬ z.toNat < x.toNat := by
                  rw [hxeqy]; exact hzy
                simp [lexLe, hxz, hzx, ih ys zs h1' h2']

theorem codepointLe_total : ∀ a b : String, codepointLe a b = true ∨ codepointLe b a = true :=
  fun a b => lexLe_total a.data b.data

theorem codepointLe_trans :
    ∀ a b c : String, codepointLe a b = true → codepointLe b c = true →
      codepointLe a c = true :=
  fun a b c => lexLe_trans a.data b.data c.data

/-- Every successful tool run produces a single-text success envelope. -/
theorem runTool_ok_shape (cfg : Config) (env : RemoteEnv) (name : String) (args : ToolArgs)
    (e : Envelope) (h : runTool cfg env name args = .ok e) :
    ∃ s, e = { content := [⟨"text", s⟩], isError := none } := by
  unfold runTool searchLogsAbsolute searchLogsRelative listStreams getSystemInfo at h
  repeat' split at h
  all_goals first
    | exact Except.noConfusion h
    | · injection h with h'
        exact ⟨_, h'.symm⟩

-- ===========================================================================
-- Claim theorems
-- ===========================================================================

/-- C1: whatever failure any layer produces, the dispatch handler returns a
well-formed single-text envelope; on any failure the envelope has `isError`
true and text `Error: ` followed by the failure message.  `dispatch` is a
total function, so no exception reaches the transport layer. -/
theorem c1_dispatch_error_boundary (cfg : Config) (env : RemoteEnv) (name : String)
    (args : ToolArgs) :
    (∃ s, (dispatch cfg env name args).content = [⟨"text", s⟩]) ∧
    (∀ msg, runTool cfg env name args = .error msg →
      dispatch cfg env name args =
        { content := [⟨"text", "Error: " ++ msg⟩], isError := some true }) := by
  constructor
  · cases hr : runTool cfg env name args with
    | error msg =>
      exact ⟨"Error: " ++ msg, by simp [dispatch, hr]⟩
    | ok e =>
      obtain ⟨s, rfl⟩ := runTool_ok_shape cfg env name args e hr
      exact ⟨s, by simp [dispatch, hr]⟩
  · intro msg h
    simp [dispatch, h]

/-- Witness for C1: a validation failure inside the absolute search surfaces
as the uniform error envelope. -/
theorem c1_dispatch_error_boundary_witness :
    dispatch cfg0 env0 "search_logs_absolute" argsLimit0 =
      { content := [⟨"text", "Error: " ++ "\x27limit\x27 must be between 1 and 1000"⟩],
        isError := some true } :=
  (c1_dispatch_error_boundary cfg0 env0 "search_logs_absolute" argsLimit0).2
    ("\x27limit\x27 must be between 1 and 1000") (by decide)

/-- C3: absolute-search time-range validation succeeds iff both strings
parse to a valid date, both contain a literal `T`, and `from` is strictly
earlier than `to`; a bare date is rejected and equal endpoints are
rejected. -/
theorem c3_time_range_validation :
    (∀ f t : String, validateTimeRange f t = .ok () ↔
      ((parseJSDate f).isSome = true ∧ includesChar f 'T' = true ∧
       (parseJSDate t).isSome = true ∧ includesChar t 'T' = true ∧
       (parseJSDate f).getD 0 < (parseJSDate t).getD 0)) ∧
    isValidISO8601 "2025-09-29" = false ∧
    (∀ f : String, validateTimeRange f f ≠ .ok ()) := by
  refine ⟨?_, by decide, ?_⟩
  · intro f t
    unfold validateTimeRange
    constructor
    · intro h
      split_ifs at h with h1 h2 h3
      have v1 := (isValidISO8601_iff f).mp (by simpa using h1)
      have v2 := (isValidISO8601_iff t).mp (by simpa using h2)
      exact ⟨v1.1, v1.2, v2.1, v2.2, lt_of_not_le h3⟩
    · rintro ⟨p1, p2, p3, p4, p5⟩
      have v1 : isValidISO8601 f = true := (isValidISO8601_iff f).mpr ⟨p1, p2⟩
      have v2 : isValidISO8601 t = true := (isValidISO8601_iff t).mpr ⟨p3, p4⟩
      rw [if_neg (by simp [v1]), if_neg (by simp [v2]), if_neg (not_le.mpr p5)]
  · intro f h
    unfold validateTimeRange at h
    split_ifs at h with h1 h2
    exact h2 (le_refl _)

/-- Witness for C3 at a concrete valid pair. -/
theorem c3_time_range_validation_witness :
    validateTimeRange "2025-01-01T00:00:00Z" "2025-01-02T00:00:00Z" = .ok () ∧
    validateTimeRange "2025-01-01T00:00:00Z" "2025-01-01T00:00:00Z" ≠ .ok () :=
  ⟨(c3_time_range_validation.1 "2025-01-01T00:00:00Z" "2025-01-02T00:00:00Z").mpr
      (by refine ⟨?_, ?_, ?_, ?_, ?_⟩ <;> decide),
   c3_time_range_validation.2.2 "2025-01-01T00:00:00Z"⟩

/-- C4: search-result shaping drops exactly the entries that are null/absent
or whose nested payload is null/absent, projects the rest to the four
fields, preserves order, and maps the mixed concrete array to exactly the
one well-formed entry's projection. -/
theorem c4_message_shaping :
    (∀ l : List RawEntry,
      shapeMessages l = (l.filter (fun m => !droppedBySpec m)).map projectEntry) ∧
    (∀ l₁ l₂ : List RawEntry,
      shapeMessages (l₁ ++ l₂) = shapeMessages l₁ ++ shapeMessages l₂) ∧
    shapeMessages [RawEntry.nullEntry, RawEntry.undefEntry, RawEntry.entry none,
        RawEntry.entry (some ⟨"2025-01-01T00:00:00.000Z", "boom", "api", "3"⟩)] =
      [⟨"2025-01-01T00:00:00.000Z", "boom", "api", "3"⟩] := by
  have hpred : (fun m => entryTruthy m && entryMessageTruthy m) =
      (fun m => !droppedBySpec m) := by
    funext m
    rcases m with _ | _ | p
    · rfl
    · rfl
    · rcases p with _ | _ <;> rfl
  refine ⟨?_, ?_, by decide⟩
  · intro l
    unfold shapeMessages
    rw [hpred]
  · intro l₁ l₂
    unfold shapeMessages
    rw [List.filter_append, List.map_append]

/-- C5: stream-list shaping excludes exactly the default streams, returns
the rest sorted ascending by title under the host collation, projects each
to the four fields with an empty default description, and reports the count
of returned streams. -/
theorem c5_stream_list_shaping (le : String → String → Bool)
    (htrans : ∀ a b c, le a b = true → le b c = true → le a c = true)
    (htotal : ∀ a b, le a b = true ∨ le b a = true)
    (d : RawStreamsData) :
    (shapeStreamsResult le d).total = (shapeStreamsResult le d).streams.length ∧
    (shapeStreamsResult le d).streams.Perm
      (((d.streams.getD []).filter (fun s => !s.is_default)).map shapeStream) ∧
    (shapeStreamsResult le d).streams.Pairwise (fun x y => le x.title y.title = true) ∧
    (∀ s, s ∈ (shapeStreamsResult le d).streams ↔
      ∃ raw, raw ∈ d.streams.getD [] ∧ raw.is_default = false ∧ s = shapeStream raw) ∧
    (∀ raw : RawStream, shapeStream raw =
      { id := raw.id, title := raw.title, description := raw.description.getD "",
        disabled := raw.disabled }) := by
  haveI : IsTotal RawStream (fun a b : RawStream => le a.title b.title = true) :=
    ⟨fun a b => htotal a.title b.title⟩
  haveI : IsTrans RawStream (fun a b : RawStream => le a.title b.title = true) :=
    ⟨fun a b c => htrans a.title b.title c.title⟩
  have hperm :
      List.insertionSort (fun a b : RawStream => le a.title b.title = true)
          ((d.streams.getD []).filter (fun s => !s.is_default)) |>.Perm
        ((d.streams.getD []).filter (fun s => !s.is_default)) :=
    List.perm_insertionSort _ _
  refine ⟨rfl, hperm.map shapeStream, ?_, ?_, fun raw => rfl⟩
  · have hsorted :=
      List.sorted_insertionSort (fun a b : RawStream => le a.title b.title = true)
        ((d.streams.getD []).filter (fun s => !s.is_default))
    unfold shapeStreamsResult
    rw [List.pairwise_map]
    exact hsorted
  · intro s
    unfold shapeStreamsResult
    simp only [List.mem_map, (hperm.map shapeStream).mem_iff, List.mem_filter,
      Bool.not_eq_true']
    constructor
    · rintro ⟨raw, ⟨hmem, hdef⟩, rfl⟩
      exact ⟨raw, hmem, hdef, rfl⟩
    · rintro ⟨raw, hmem, hdef, rfl⟩
      exact ⟨raw, ⟨hmem, hdef⟩, rfl⟩

/-- Witness for C5 under the codepoint collation on a mixed fixture. -/
theorem c5_stream_list_shaping_witness :
    (shapeStreamsResult codepointLe streamsFixture).streams.Perm
      (((streamsFixture.streams.getD []).filter (fun s => !s.is_default)).map shapeStream) ∧
    (shapeStreamsResult codepointLe streamsFixture).streams.Pairwise
      (fun x y => codepointLe x.title y.title = true) :=
  ⟨(c5_stream_list_shaping codepointLe codepointLe_trans codepointLe_total
      streamsFixture).2.1,
   (c5_stream_list_shaping codepointLe codepointLe_trans codepointLe_total
      streamsFixture).2.2.1⟩

/-- C6: Remote-failure normalization maps each failure to a single message by
case: an HTTP 401 response yields the fixed authentication-failure guidance
regardless of any response body content; a 400, 404, 500 or other-status
response yields the corresponding status-specific message; a request with no
response yields the cannot-reach message naming the configured base address;
a failure with neither response nor request surfaces the raw message
unmodified. -/
theorem c6_formatError_normalization (b : String) (dm : Option String) (req : Bool)
    (m : String) :
    formatError b ⟨some ⟨401, dm⟩, req, m⟩ =
      "Authentication failed. Check API_TOKEN in MCP configuration." ∧
    formatError b ⟨some ⟨400, dm⟩, req, m⟩ =
      "Invalid query: " ++ orFalsy dm ("Check query syntax and parameters") ∧
    formatError b ⟨some ⟨404, dm⟩, req, m⟩ =
      "Endpoint not found. Check BASE_URL in MCP configuration." ∧
    formatError b ⟨some ⟨500, dm⟩, req, m⟩ = "Graylog server error: " ++ orFalsy dm m ∧
    (∀ st : Nat, st ≠ 401 → st ≠ 400 → st ≠ 404 → st ≠ 500 →
      formatError b ⟨some ⟨st, dm⟩, req, m⟩ =
        "Graylog API error (" ++ toString st ++ "): " ++ orFalsy dm m) ∧
    formatError b ⟨none, true, m⟩ =
      "Cannot reach Graylog at " ++ b ++ ". Check network connectivity." ∧
    formatError b ⟨none, false, m⟩ = m := by
  refine ⟨rfl, rfl, rfl, rfl, ?_, rfl, rfl⟩
  intro st h1 h2 h3 h4
  simp [formatError, h1, h2, h3, h4]

/-- Witness for C6 at a concrete other-status failure. -/
theorem c6_formatError_normalization_witness :
    formatError "http://g" ⟨some ⟨503, none⟩, true, "socket hang up"⟩ =
      "Graylog API error (503): socket hang up" :=
  (c6_formatError_normalization "http://g" none true "socket hang up").2.2.2.2.1 503
    (by decide) (by decide) (by decide) (by decide)

/-- C8: every `streamId` that is neither `undefined` nor of string type
(including `null`) fails validation with the message naming `streamId`; every
string value, and `undefined`, succeed. -/
theorem c8_streamId_validation :
    (∀ v : JSVal, checkStreamId v = .ok () ↔ (v = JSVal.undefined ∨ typeOf v = "string")) ∧
    (∀ v : JSVal, v ≠ JSVal.undefined → typeOf v ≠ "string" →
      checkStreamId v = .error ("\x27streamId\x27 must be a string")) ∧
    (∀ s : String, checkStreamId (JSVal.str s) = .ok ()) ∧
    checkStreamId JSVal.undefined = .ok () ∧
    checkStreamId JSVal.null = .error ("\x27streamId\x27 must be a string") := by
  refine ⟨?_, ?_, fun s => rfl, rfl, rfl⟩
  · intro v
    cases v <;> simp [checkStreamId, typeOf]
  · intro v h1 h2
    unfold checkStreamId
    rw [if_pos ⟨h1, h2⟩]

/-- Witness for C8 at a concrete non-string, non-undefined value. -/
theorem c8_streamId_validation_witness :
    checkStreamId (JSVal.num 123) = .error ("\x27streamId\x27 must be a string") :=
  c8_streamId_validation.2.1 (JSVal.num 123) (by decide) (by decide)

/-- C2: in absolute-search validation the limit resolves to 50 exactly when
absent (`undefined`) or `null`; every numeric limit in `[1, 1000]` passes;
every numeric limit below 1 (in particular 0) or above 1000 fails with the
error naming the range; a zero limit reaches the range error through the
whole absolute search, not the default. -/
theorem c2_absolute_limit_validation :
    (resolveDefault JSVal.undefined 50 = JSVal.num 50 ∧
      resolveDefault JSVal.null 50 = JSVal.num 50) ∧
    (∀ v : JSVal, v ≠ JSVal.undefined → v ≠ JSVal.null → resolveDefault v 50 = v) ∧
    (∀ q : ℚ, 1 ≤ q → q ≤ 1000 → checkLimit (JSVal.num q) = .ok ()) ∧
    (∀ q : ℚ, q < 1 ∨ 1000 < q →
      checkLimit (JSVal.num q) = .error ("\x27limit\x27 must be between 1 and 1000")) ∧
    searchLogsAbsolute cfg0 env0 argsLimit0 =
      .error ("\x27limit\x27 must be between 1 and 1000") := by
  refine ⟨⟨rfl, rfl⟩, ?_, ?_, ?_, by decide⟩
  · intro v h1 h2
    cases v <;> first | rfl | exact absurd rfl h1 | exact absurd rfl h2
  · intro q h1 h2
    have hl : jsLtNum (JSVal.num q) 1 = false := by
      simp only [jsLtNum, jsToNumberOpt, decide_eq_false_iff_not]
      exact not_lt.mpr h1
    have hg : jsGtNum (JSVal.num q) 1000 = false := by
      simp only [jsGtNum, jsToNumberOpt, decide_eq_false_iff_not]
      exact not_lt.mpr h2
    simp [checkLimit, hl, hg]
  · intro q h
    rcases h with h | h
    · have hl : jsLtNum (JSVal.num q) 1 = true := by
        simp only [jsLtNum, jsToNumberOpt, decide_eq_true_eq]
        exact h
      simp [checkLimit, hl]
    · have hg : jsGtNum (JSVal.num q) 1000 = true := by
        simp only [jsGtNum, jsToNumberOpt, decide_eq_true_eq]
        exact h
      simp [checkLimit, hg]

/-- Witness for C2 at the top of the range and at zero. -/
theorem c2_absolute_limit_validation_witness :
    checkLimit (JSVal.num 1000) = .ok () ∧
    checkLimit (JSVal.num 0) = .error ("\x27limit\x27 must be between 1 and 1000") :=
  ⟨c2_absolute_limit_validation.2.2.1 1000 (by norm_num) (by norm_num),
   c2_absolute_limit_validation.2.2.2.1 0 (Or.inl (by norm_num))⟩

/-- C7: in relative-search validation `rangeSeconds` resolves to 900 exactly
when absent or `null`; every numeric value in `[1, 86400]` passes; 0, any
negative value, or any value above 86400 fails with the error naming the
bounds; a zero range reaches that error through the whole relative search. -/
theorem c7_relative_range_validation :
    (resolveDefault JSVal.undefined 900 = JSVal.num 900 ∧
      resolveDefault JSVal.null 900 = JSVal.num 900) ∧
    (∀ v : JSVal, v ≠ JSVal.undefined → v ≠ JSVal.null → resolveDefault v 900 = v) ∧
    (∀ q : ℚ, 1 ≤ q → q ≤ 86400 → checkRangeSeconds (JSVal.num q) = .ok ()) ∧
    (∀ q : ℚ, q < 1 ∨ 86400 < q →
      checkRangeSeconds (JSVal.num q) =
        .error ("\x27rangeSeconds\x27 must be between 1 and 86400 (24 hours)")) ∧
    searchLogsRelative cfg0 env0 argsRange0 =
      .error ("\x27rangeSeconds\x27 must be between 1 and 86400 (24 hours)") := by
  refine ⟨⟨rfl, rfl⟩, ?_, ?_, ?_, by decide⟩
  · intro v h1 h2
    cases v <;> first | rfl | exact absurd rfl h1 | exact absurd rfl h2
  · intro q h1 h2
    have hl : jsLtNum (JSVal.num q) 1 = false := by
      simp only [jsLtNum, jsToNumberOpt, decide_eq_false_iff_not]
      exact not_lt.mpr h1
    have hg : jsGtNum (JSVal.num q) 86400 = false := by
      simp only [jsGtNum, jsToNumberOpt, decide_eq_false_iff_not]
      exact not_lt.mpr h2
    simp [checkRangeSeconds, hl, hg]
  · intro q h
    rcases h with h | h
    · have hl : jsLtNum (JSVal.num q) 1 = true := by
        simp only [jsLtNum, jsToNumberOpt, decide_eq_true_eq]
        exact h
      simp [checkRangeSeconds, hl]
    · have hg : jsGtNum (JSVal.num q) 86400 = true := by
        simp only [jsGtNum, jsToNumberOpt, decide_eq_true_eq]
        exact h
      simp [checkRangeSeconds, hg]

/-- Witness for C7 at the top of the range and at zero. -/
theorem c7_relative_range_validation_witness :
    checkRangeSeconds (JSVal.num 86400) = .ok () ∧
    checkRangeSeconds (JSVal.num 0) =
      .error ("\x27rangeSeconds\x27 must be between 1 and 86400 (24 hours)") :=
  ⟨c7_relative_range_validation.2.2.1 86400 (by norm_num) (by norm_num),
   c7_relative_range_validation.2.2.2.1 0 (Or.inl (by norm_num))⟩

/-- C10 (implicit): a limit whose `ToNumber` coercion is NaN — and that is
not nullish, so the default does not replace it — makes both range
comparisons false, so validation accepts it and both search validations
forward it unchanged in the built request parameters; through the full
absolute search the very value reaches the remote call. -/
theorem c10_incomparable_limit_forwarded (v : JSVal)
    (h : jsToNumberOpt v = none) (hu : v ≠ JSVal.undefined) (hn : v ≠ JSVal.null) :
    (jsLtNum v 1 = false ∧ jsGtNum v 1000 = false) ∧
    checkLimit v = .ok () ∧
    absValidate (argsAbsWithLimit v) = .ok (buildAbsParams (argsAbsWithLimit v) v) ∧
    (buildAbsParams (argsAbsWithLimit v) v).limit = v ∧
    relValidate (argsRelWithLimit v) =
      .ok (buildRelParams (argsRelWithLimit v) (JSVal.num 900) v) ∧
    (buildRelParams (argsRelWithLimit v) (JSVal.num 900) v).limit = v ∧
    searchLogsAbsolute cfg0 envRecordLimit (argsAbsWithLimit v) = .error (jsDisplay v) := by
  have hlt : jsLtNum v 1 = false := by
    unfold jsLtNum
    rw [h]
  have hgt : jsGtNum v 1000 = false := by
    unfold jsGtNum
    rw [h]
  have hres : resolveDefault v 50 = v := by
    cases v <;> first | rfl | exact absurd rfl hu | exact absurd rfl hn
  have hchk : checkLimit v = .ok () := by
    simp [checkLimit, hlt, hgt]
  have e1 : checkQuery (JSVal.str "level:ERROR") = .ok () := by decide
  have e2 : validateTimeRange "2025-01-01T00:00:00Z" "2025-01-02T00:00:00Z" = .ok () := by
    decide
  have e3 : checkStreamId JSVal.undefined = .ok () := by decide
  have e4 : checkRangeSeconds (JSVal.num 900) = .ok () := by decide
  have habs : absValidate (argsAbsWithLimit v) = .ok (buildAbsParams (argsAbsWithLimit v) v) := by
    simp only [absValidate, argsAbsWithLimit, hres, e1, e2, e3, hchk]
  have hrel : relValidate (argsRelWithLimit v) =
      .ok (buildRelParams (argsRelWithLimit v) (JSVal.num 900) v) := by
    simp only [relValidate, argsRelWithLimit, resolveDefault, jsNullish, if_pos, hres, e1, e4,
      e3, hchk]
    simp only [argsRelWithLimit] at hres
    simp [hres]
    rw [hchk]
  refine ⟨⟨hlt, hgt⟩, hchk, habs, rfl, hrel, rfl, ?_⟩
  simp only [searchLogsAbsolute, habs, envRecordLimit, env0, graylogRequest, formatError,
    buildAbsParams]
  simp

/-- Witness for C10 at the non-numeric string limit `"abc"`. -/
theorem c10_incomparable_limit_forwarded_witness :
    checkLimit (JSVal.str "abc") = .ok () ∧
    searchLogsAbsolute cfg0 envRecordLimit (argsAbsWithLimit (JSVal.str "abc")) =
      .error (jsDisplay (JSVal.str "abc")) :=
  ⟨(c10_incomparable_limit_forwarded (JSVal.str "abc")
      (by decide) (by decide) (by decide)).2.1,
   (c10_incomparable_limit_forwarded (JSVal.str "abc")
      (by decide) (by decide) (by decide)).2.2.2.2.2.2⟩

/-- C9: dispatching a name that is none of the four tools yields the error
envelope whose text is the `Unknown tool: ` message for that name, and does
so without consulting the remote environment or the arguments. -/
theorem c9_unknown_tool (cfg : Config) (env env' : RemoteEnv) (args args' : ToolArgs)
    (name : String)
    (h1 : name ≠ "search_logs_absolute") (h2 : name ≠ "search_logs_relative")
    (h3 : name ≠ "list_streams") (h4 : name ≠ "get_system_info") :
    dispatch cfg env name args =
      { content := [⟨"text", "Error: " ++ ("Unknown tool: " ++ name)⟩], isError := some true } ∧
    dispatch cfg env name args = dispatch cfg env' name args' := by
  have h : ∀ (e : RemoteEnv) (a : ToolArgs),
      runTool cfg e name a = .error ("Unknown tool: " ++ name) := by
    intro e a
    simp [runTool, h1, h2, h3, h4]
  constructor
  · simp [dispatch, h]
  · simp [dispatch, h]

/-- Witness for C9 at the unknown tool name `foo`. -/
theorem c9_unknown_tool_witness :
    dispatch cfg0 env0 "foo" args0 =
      { content := [⟨"text", "Error: " ++ ("Unknown tool: " ++ "foo")⟩], isError := some true } :=
  (c9_unknown_tool cfg0 env0 env0 args0 args0 "foo"
    (by decide) (by decide) (by decide) (by decide)).1

end Graylog
